import Mathlib

/-!
Verification development for the pytest_gui execution core.

This file gives a shallow embedding, in Lean 4, of the parts of the
repository that the specification's core claims are about:

* `src/pytest_gui/core/test_runner.py` — the output-parsing patterns
  (`TestRunner.test_patterns`), the line handlers (`_parse_test_result`,
  `_parse_progress`, `_process_output_line`), the progress record
  (`TestRunnerProgress`), and the start/stop/monitor state machine
  (`start_tests`, `stop_tests`, `_force_kill_process`, `_monitor_process`).
* `src/pytest_gui/ui/test_tree.py` — the three-tier status correlation
  (`TestTreeWidget.update_test_status`).

Python strings are modelled as `List Char` (with `String` at the API
boundary), Python ints as `Nat`, Python float division in the derived
percentage as exact rational division over `ℚ`.  The Python regular
expressions in `TestRunner.test_patterns` are anchored with `^` and used
with `search`, so a match must start at position 0; each pattern has the
shape  `ident  \s+  TOKEN  junk`  with `ident` the greedy group
`[^:]+::[^:]+(?:::[^:]+)*`.  Greedy backtracking makes the captured group
the longest prefix of the line that is a valid identifier and is followed
by one-or-more whitespace characters and the literal token; the matchers
below implement exactly that characterisation.
-/

namespace PytestGui

/-- Status enum from `test_discovery.py` (`TestStatus`). -/
inductive TestStatus
  | pending
  | running
  | passed
  | failed
  | skipped
  | error
deriving DecidableEq, Repr

/-- The four outcome branches of `TestRunner._parse_test_result`
(`test_passed`, `test_failed`, `test_skipped`, `test_error`), in the
iteration order of the `test_patterns` dict. -/
inductive Outcome
  | passed
  | failed
  | skipped
  | error
deriving DecidableEq, Repr

/-- Outcome as the `TestStatus` value assigned by `_parse_test_result`. -/
def Outcome.toStatus : Outcome → TestStatus
  | .passed => .passed
  | .failed => .failed
  | .skipped => .skipped
  | .error => .error

/-- ASCII whitespace recognised by Python's regex `\s`. -/
def pySpace (c : Char) : Bool :=
  c == ' ' || c == '\t' || c == '\n' || c == '\r' || c == '\x0b' || c == '\x0c'

/-- Python `s.split("::")`: split on the two-character separator, leftmost,
non-overlapping; always returns at least one (possibly empty) part. -/
def splitSegs : List Char → List (List Char)
  | [] => [[]]
  | [c] => [[c]]
  | c1 :: c2 :: rest =>
    if c1 = ':' ∧ c2 = ':' then [] :: splitSegs rest
    else (c1 :: (splitSegs (c2 :: rest)).headD []) :: (splitSegs (c2 :: rest)).tail

/-- Python `s.split('/')`. -/
def splitSlash : List Char → List (List Char)
  | [] => [[]]
  | c :: rest =>
    if c = '/' then [] :: splitSlash rest
    else (c :: (splitSlash rest).headD []) :: (splitSlash rest).tail

/-- Python `'::' in s`: the list has two adjacent colons. -/
def containsColons : List Char → Bool
  | [] => false
  | [_] => false
  | c1 :: c2 :: rest =>
    if c1 = ':' ∧ c2 = ':' then true else containsColons (c2 :: rest)

/-- Membership in the regex group language `[^:]+::[^:]+(?:::[^:]+)*`:
at least two segments, every segment non-empty and colon-free. -/
def validIdent (cs : List Char) : Bool :=
  decide (2 ≤ (splitSegs cs).length)
    && (splitSegs cs).all (fun s => !s.isEmpty && s.all (fun c => c != ':'))

/-- After the identifier group the patterns require `\s+` and then a
literal token (`...`, `PASSED`, `FAILED`, `SKIPPED`, `ERROR`); whatever
follows the token is irrelevant to `re.search`. Since no token starts
with a whitespace character, greedy `\s+` followed by the token is
equivalent to: a non-empty whitespace run, then the token as a prefix of
what remains. -/
def restMatches (token rest : List Char) : Bool :=
  !(rest.takeWhile pySpace).isEmpty && token.isPrefixOf (rest.dropWhile pySpace)

/-- Scan candidate group lengths from `k` downwards (the greedy engine
prefers the longest group); return the first prefix that is a valid
identifier and is followed by whitespace and the token. -/
def identSearch (token cs : List Char) : Nat → Option (List Char)
  | 0 => none
  | k + 1 =>
    if validIdent (cs.take (k + 1)) && restMatches token (cs.drop (k + 1)) then
      some (cs.take (k + 1))
    else identSearch token cs k

/-- Match `^(ident)\s+token...` at position 0, returning the captured
group, as Python's `pattern.search(line)` does for the anchored patterns
of `TestRunner.test_patterns`. -/
def matchIdentThen (token cs : List Char) : Option (List Char) :=
  identSearch token cs cs.length

/-- The `test_start` pattern `^([^:]+::[^:]+(?:::[^:]+)*)\s+\.\.\.`. -/
def matchStart (line : String) : Option String :=
  (matchIdentThen (String.toList "...") line.toList).map (fun cs => String.mk cs)

/-- The `test_passed` pattern `^(ident)\s+PASSED\s*(?:\[.*?\])?`; the
trailing optional groups never affect whether a match exists nor the
captured group. -/
def matchPassed (line : String) : Option String :=
  (matchIdentThen (String.toList "PASSED") line.toList).map (fun cs => String.mk cs)

/-- The `test_failed` pattern `^(ident)\s+FAILED\s*(?:\[.*?\])?`. -/
def matchFailed (line : String) : Option String :=
  (matchIdentThen (String.toList "FAILED") line.toList).map (fun cs => String.mk cs)

/-- The `test_skipped` pattern
`^(ident)\s+SKIPPED\s*(?:\([^)]*\))?\s*(?:\[.*?\])?`. -/
def matchSkipped (line : String) : Option String :=
  (matchIdentThen (String.toList "SKIPPED") line.toList).map (fun cs => String.mk cs)

/-- The `test_error` pattern `^(ident)\s+ERROR\s*(?:\[.*?\])?`. -/
def matchError (line : String) : Option String :=
  (matchIdentThen (String.toList "ERROR") line.toList).map (fun cs => String.mk cs)

/-- A typed event extracted from one output line by
`TestRunner._parse_test_result`. -/
inductive ParsedEvent
  | started (id : String)
  | finished (id : String) (outcome : Outcome)
deriving DecidableEq, Repr

/-- The classification performed by `TestRunner._parse_test_result`:
the `test_start` pattern is tried first (early return), then the outcome
patterns in the dict's insertion order `test_passed`, `test_failed`,
`test_skipped`, `test_error`; the first match wins. -/
def parseTestResultEvent (line : String) : Option ParsedEvent :=
  match matchStart line with
  | some id => some (ParsedEvent.started id)
  | none =>
    match matchPassed line with
    | some id => some (ParsedEvent.finished id Outcome.passed)
    | none =>
      match matchFailed line with
      | some id => some (ParsedEvent.finished id Outcome.failed)
      | none =>
        match matchSkipped line with
        | some id => some (ParsedEvent.finished id Outcome.skipped)
        | none =>
          match matchError line with
          | some id => some (ParsedEvent.finished id Outcome.error)
          | none => none

/-- Python decimal-digit run to a number, for the `collected (\d+) item`
capture. -/
def digitsToNat (ds : List Char) : Nat :=
  ds.foldl (fun n c => n * 10 + (c.toNat - 48)) 0

/-- Does the `collecting` pattern `collected (\d+) item` match at the head
of `cs`?  The digit group is greedy and cannot trade digits against the
following space, so it is exactly the maximal digit run. -/
def collectedAt (cs : List Char) : Option Nat :=
  if (String.toList "collected ").isPrefixOf cs then
    if !((cs.drop 10).takeWhile Char.isDigit).isEmpty
        && (String.toList " item").isPrefixOf ((cs.drop 10).dropWhile Char.isDigit) then
      some (digitsToNat ((cs.drop 10).takeWhile Char.isDigit))
    else none
  else none

/-- `re.search` of the un-anchored `collecting` pattern: leftmost match
anywhere in the line. -/
def findCollected : List Char → Option Nat
  | [] => none
  | c :: rest =>
    match collectedAt (c :: rest) with
    | some n => some n
    | none => findCollected rest

/-- Python `s.strip()` restricted to ASCII whitespace. -/
def pyStrip (cs : List Char) : List Char :=
  ((cs.dropWhile pySpace).reverse.dropWhile pySpace).reverse

/-- Python `line.strip()` on a `String`. -/
def stripStr (line : String) : String :=
  String.mk (pyStrip line.toList)

/-- Python `s1 in s2` substring test. -/
def containsSub (pat : List Char) : List Char → Bool
  | [] => pat.isEmpty
  | c :: rest => pat.isPrefixOf (c :: rest) || containsSub pat rest

/-- `TestRunnerProgress` from `test_runner.py` (the float field
`elapsed_time` is never read by the claims and is omitted; counters are
Python ints that remain non-negative, so `Nat`). -/
structure TestRunnerProgress where
  total_tests : Nat
  completed_tests : Nat
  passed_tests : Nat
  failed_tests : Nat
  skipped_tests : Nat
  error_tests : Nat
  current_test : Option String
deriving DecidableEq, Repr

/-- `TestRunnerProgress.__init__`: everything zero, no current test. -/
def initProgress : TestRunnerProgress :=
  { total_tests := 0, completed_tests := 0, passed_tests := 0,
    failed_tests := 0, skipped_tests := 0, error_tests := 0,
    current_test := none }

/-- The `progress_percentage` property: `0.0` when `total_tests == 0`,
otherwise `(completed_tests / total_tests) * 100` (Python float division
modelled as exact division in `ℚ`). -/
def progress_percentage (p : TestRunnerProgress) : ℚ :=
  if p.total_tests = 0 then 0
  else ((p.completed_tests : ℚ) / (p.total_tests : ℚ)) * 100

/-- The `remaining_tests` property (`total - completed`, truncated at 0
by `Nat` subtraction; the Python value can go negative, but no claim
touches that case). -/
def remaining_tests (p : TestRunnerProgress) : Nat :=
  p.total_tests - p.completed_tests

/-- Counter update performed by the matched outcome branch of
`_parse_test_result`: the matching outcome counter and then
`completed_tests` are each incremented by one. -/
def applyOutcome (o : Outcome) (p : TestRunnerProgress) : TestRunnerProgress :=
  match o with
  | .passed =>
    { p with passed_tests := p.passed_tests + 1,
             completed_tests := p.completed_tests + 1 }
  | .failed =>
    { p with failed_tests := p.failed_tests + 1,
             completed_tests := p.completed_tests + 1 }
  | .skipped =>
    { p with skipped_tests := p.skipped_tests + 1,
             completed_tests := p.completed_tests + 1 }
  | .error =>
    { p with error_tests := p.error_tests + 1,
             completed_tests := p.completed_tests + 1 }

/-- Effect of `TestRunner._parse_test_result(line)` on `self.progress`:
a `test_start` match returns early without touching the counters; an
outcome match increments via `applyOutcome`; an unmatched line changes
nothing. -/
def applyTestResultLine (line : String) (p : TestRunnerProgress) : TestRunnerProgress :=
  match parseTestResultEvent line with
  | some (ParsedEvent.started _) => p
  | some (ParsedEvent.finished _ o) => applyOutcome o p
  | none => p

/-- The guard of the `current_test` update in `_parse_progress`: the line
contains `::`, contains neither ` PASSED` nor ` FAILED`, and splits on
`::` into at least two parts. -/
def currentTestHint (line : String) : Bool :=
  containsColons line.toList
    && !(containsSub (String.toList " PASSED") line.toList)
    && !(containsSub (String.toList " FAILED") line.toList)
    && decide (2 ≤ (splitSegs line.toList).length)

/-- Effect of `TestRunner._parse_progress(line)` on `self.progress`:
first the `collecting` pattern overwrites `total_tests`; then, under
`currentTestHint`, `current_test` is set to the whitespace-stripped raw
line. -/
def parseProgressStep (line : String) (p : TestRunnerProgress) : TestRunnerProgress :=
  let p1 :=
    match findCollected line.toList with
    | some n => { p with total_tests := n }
    | none => p
  if currentTestHint line then { p1 with current_test := some (stripStr line) }
  else p1

/-- `TestRunner._process_output_line(line)`: `_parse_test_result` runs
first, then `_parse_progress`, both mutating `self.progress`. -/
def processOutputLine (line : String) (p : TestRunnerProgress) : TestRunnerProgress :=
  parseProgressStep line (applyTestResultLine line p)

/-- A whole run's worth of `TestFinished` events applied in order, from
the fresh progress record. -/
def aggRun (l : List Outcome) : TestRunnerProgress :=
  l.foldl (fun p o => applyOutcome o p) initProgress

/-- The aggregator invariant of the spec:
`completedTests == passed+failed+skipped+errors`. -/
def aggInv (p : TestRunnerProgress) : Prop :=
  p.completed_tests = p.passed_tests + p.failed_tests + p.skipped_tests + p.error_tests

/-- `TestRunnerState` from `test_runner.py`. -/
inductive TestRunnerState
  | idle
  | running
  | stopping
  | stopped
  | error
deriving DecidableEq, Repr

/-- Side effects of `TestRunner` methods that matter for the concurrency
claims, tagged by what they do.  In the shallow embedding, actions listed
in a method's own trace run synchronously in the thread that called the
method (ordinary Python function-call semantics); `_monitor_process` runs
on the spawned monitoring thread. -/
inductive RunnerAction
  | setState (s : TestRunnerState)
  | terminateProcess
  | waitForExit (timeout : Option Nat)
  | killProcessTree
deriving DecidableEq, Repr

/-- Final state transition of `TestRunner._monitor_process` once the
output stream ends and the process has exited: `STOPPING → STOPPED`,
anything else `→ IDLE`. -/
def monitorCompletion (s : TestRunnerState) : TestRunnerState :=
  if s = TestRunnerState.stopping then TestRunnerState.stopped
  else TestRunnerState.idle

/-- Actions performed on the monitoring thread by `_monitor_process`
after the line loop: an unbounded `process.wait()` and the final state
transition.  It performs no bounded wait and no forceful kill. -/
def monitorProcessActions (stateAtExit : TestRunnerState) : List RunnerAction :=
  [RunnerAction.waitForExit none,
   RunnerAction.setState (monitorCompletion stateAtExit)]

/-- `TestRunner.stop_tests()` as a state transition plus the trace of
actions executed synchronously in the body of the call (hence in the
caller's thread).  `exitsWithinTimeout` abstracts whether
`process.wait(timeout=5.0)` returns before raising `TimeoutExpired`; on
timeout `_force_kill_process` kills the process tree and then waits
without bound. -/
def stopTests (s : TestRunnerState) (exitsWithinTimeout : Bool) :
    TestRunnerState × List RunnerAction :=
  if s ≠ TestRunnerState.running then (s, [])
  else
    (TestRunnerState.stopping,
      [RunnerAction.setState TestRunnerState.stopping,
       RunnerAction.terminateProcess,
       RunnerAction.waitForExit (some 5)]
      ++ (if exitsWithinTimeout then []
          else [RunnerAction.killProcessTree, RunnerAction.waitForExit none]))

/-- Result of `TestRunner.start_tests`: the returned boolean, the runner
state and progress afterwards, and whether a subprocess and monitoring
thread were created. -/
structure StartResult where
  ok : Bool
  state : TestRunnerState
  progress : TestRunnerProgress
  spawned : Bool
  monitorStarted : Bool
deriving DecidableEq, Repr

/-- `TestRunner.start_tests` (non-exception path): a guard rejects any
state other than IDLE with no side effect at all; on success the progress
is reset fresh and `total_tests` seeded with `len(test_paths)`, the
subprocess and the monitoring thread are started, and the state becomes
RUNNING. -/
def startTests (s : TestRunnerState) (p : TestRunnerProgress)
    (test_paths : List String) : StartResult :=
  if s ≠ TestRunnerState.idle then
    { ok := false, state := s, progress := p, spawned := false, monitorStarted := false }
  else
    { ok := true,
      state := TestRunnerState.running,
      progress := { initProgress with total_tests := test_paths.length },
      spawned := true,
      monitorStarted := true }

/-- The structural-match test of the correlation loop in
`TestTreeWidget.update_test_status` (lines 368–382): both paths must
contain `::`, split into at least two parts, agree on the last part, and
agree on the last `/`-component of the part before the first `::`. -/
def structuralMatch (test_path stored_path : String) : Bool :=
  containsColons test_path.toList && containsColons stored_path.toList
    && decide (2 ≤ (splitSegs test_path.toList).length)
    && decide (2 ≤ (splitSegs stored_path.toList).length)
    && ((splitSegs test_path.toList).getLastD [] == (splitSegs stored_path.toList).getLastD [])
    && ((splitSlash ((splitSegs test_path.toList).headD [])).getLastD []
          == (splitSlash ((splitSegs stored_path.toList).headD [])).getLastD [])

/-- The structural tier as the specification words it: split both the
identifier and the candidate key on `::`; match when the final segments
are identical and the file-name components (last `/`-segment of the part
before the first `::`) are identical.  Used only to compare the spec's
stated rule against `structuralMatch`, the rule the code implements. -/
def specStructuralMatch (identifier key : String) : Bool :=
  ((splitSegs identifier.toList).getLastD [] == (splitSegs key.toList).getLastD [])
    && ((splitSlash ((splitSegs identifier.toList).headD [])).getLastD []
          == (splitSlash ((splitSegs key.toList).headD [])).getLastD [])

/-- The bare test name used by the third tier:
`test_path.split('::')[-1] if '::' in test_path else test_path`. -/
def testName (test_path : String) : List Char :=
  if containsColons test_path.toList then (splitSegs test_path.toList).getLastD []
  else test_path.toList

/-- Tier 1 of `update_test_status`: `self.item_map.get(test_path)`.  The
`item_map` dict is modelled as an association list in insertion order. -/
def lookupExact {α : Type} (idx : List (String × α)) (test_path : String) : Option α :=
  (idx.find? (fun kv => kv.1 == test_path)).map (fun kv => kv.2)

/-- Tier 2: the first stored item whose key matches structurally, in the
dict's iteration (insertion) order. -/
def findStructural {α : Type} (idx : List (String × α)) (test_path : String) : Option α :=
  (idx.find? (fun kv => structuralMatch test_path kv.1)).map (fun kv => kv.2)

/-- Tier 3: the first stored key ending with `"::" + test_name`. -/
def findByName {α : Type} (idx : List (String × α)) (test_path : String) : Option α :=
  (idx.find? (fun kv =>
    List.isSuffixOf (':' :: ':' :: testName test_path) kv.1.toList)).map (fun kv => kv.2)

/-- `TestTreeWidget.update_test_status` as a resolution function: which
stored item (if any) has its status overwritten.  Exact lookup first,
then the structural loop, then the name-suffix loop; each tier returns as
soon as it hits.  When every tier misses, the method only logs a warning
and returns — no exception, no update — which the model renders as
`none`. -/
def resolveNode {α : Type} (idx : List (String × α)) (test_path : String) : Option α :=
  match lookupExact idx test_path with
  | some v => some v
  | none =>
    match findStructural idx test_path with
    | some v => some v
    | none => findByName idx test_path

/-! ### Helper lemmas -/

theorem splitSegs_ne_nil : ∀ (cs : List Char), splitSegs cs ≠ []
  | [] => by simp [splitSegs]
  | [c] => by simp [splitSegs]
  | c1 :: c2 :: rest => by
    by_cases h : c1 = ':' ∧ c2 = ':' <;> simp [splitSegs, h]

theorem two_le_splitSegs_iff :
    ∀ (cs : List Char), 2 ≤ (splitSegs cs).length ↔ containsColons cs = true
  | [] => by simp [splitSegs, containsColons]
  | [c] => by simp [splitSegs, containsColons]
  | c1 :: c2 :: rest => by
    by_cases h : c1 = ':' ∧ c2 = ':'
    · have h1 : 1 ≤ (splitSegs rest).length :=
        Nat.one_le_iff_ne_zero.mpr (by
          simpa [List.length_eq_zero] using splitSegs_ne_nil rest)
      simp [splitSegs, containsColons, h]
      omega
    · have ih := two_le_splitSegs_iff (c2 :: rest)
      obtain ⟨s, ss, hs⟩ := List.exists_cons_of_ne_nil (splitSegs_ne_nil (c2 :: rest))
      rw [hs] at ih
      simp only [List.length_cons] at ih
      have hcc : containsColons (c1 :: c2 :: rest) = containsColons (c2 :: rest) := by
        simp [containsColons, h]
      rw [hcc]
      simp only [splitSegs, if_neg h, hs, List.headD_cons, List.tail_cons, List.length_cons]
      exact ih

theorem containsColons_append :
    ∀ (p q : List Char), containsColons p = true → containsColons (p ++ q) = true
  | [], _ => by intro h; simp [containsColons] at h
  | [c], _ => by intro h; simp [containsColons] at h
  | c1 :: c2 :: rest, q => by
    by_cases h : c1 = ':' ∧ c2 = ':'
    · intro _
      simp [containsColons, h]
    · intro hp
      have hp' : containsColons (c2 :: rest) = true := by
        simpa [containsColons, h] using hp
      have ih := containsColons_append (c2 :: rest) q hp'
      simpa [containsColons, h] using ih

theorem validIdent_colons {cs : List Char} (h : validIdent cs = true) :
    containsColons cs = true := by
  have h2 : 2 ≤ (splitSegs cs).length := by
    simp only [validIdent, Bool.and_eq_true, decide_eq_true_eq] at h
    exact h.1
  exact (two_le_splitSegs_iff cs).mp h2

theorem identSearch_eq_some :
    ∀ (token cs : List Char) (k : Nat) (p : List Char),
      identSearch token cs k = some p → validIdent p = true ∧ ∃ j, p = cs.take j
  | token, cs, 0, p => by simp [identSearch]
  | token, cs, k + 1, p => by
    simp only [identSearch]
    split
    · next hcond =>
      intro hp
      obtain rfl : cs.take (k + 1) = p := by injection hp
      refine ⟨?_, k + 1, rfl⟩
      simp only [Bool.and_eq_true] at hcond
      exact hcond.1
    · exact identSearch_eq_some token cs k p

theorem matchStart_valid {line id : String} (h : matchStart line = some id) :
    validIdent id.toList = true ∧ ∃ j, id.toList = line.toList.take j := by
  obtain ⟨p, hp, hid⟩ := Option.map_eq_some'.mp h
  obtain ⟨hv, j, hj⟩ := identSearch_eq_some _ _ _ _ hp
  have hlist : id.toList = p := by subst hid; rfl
  exact ⟨by rw [hlist]; exact hv, j, by rw [hlist]; exact hj⟩

theorem matchStart_colons {line id : String} (h : matchStart line = some id) :
    containsColons line.toList = true := by
  obtain ⟨hv, j, hj⟩ := matchStart_valid h
  have hc : containsColons (line.toList.take j) = true := by
    rw [← hj]; exact validIdent_colons hv
  have := containsColons_append (line.toList.take j) (line.toList.drop j) hc
  rwa [List.take_append_drop] at this

theorem applyOutcome_total (o : Outcome) (p : TestRunnerProgress) :
    (applyOutcome o p).total_tests = p.total_tests := by
  cases o <;> rfl

theorem applyOutcome_completed (o : Outcome) (p : TestRunnerProgress) :
    (applyOutcome o p).completed_tests = p.completed_tests + 1 := by
  cases o <;> rfl

theorem aggInv_applyOutcome (o : Outcome) (p : TestRunnerProgress)
    (h : aggInv p) : aggInv (applyOutcome o p) := by
  cases o <;> simp [aggInv, applyOutcome] at h ⊢ <;> omega

theorem aggInv_foldl :
    ∀ (l : List Outcome) (p : TestRunnerProgress), aggInv p →
      aggInv (l.foldl (fun p o => applyOutcome o p) p)
  | [], _, h => h
  | o :: l, p, h => aggInv_foldl l (applyOutcome o p) (aggInv_applyOutcome o p h)

theorem foldl_completed :
    ∀ (l : List Outcome) (p : TestRunnerProgress),
      (l.foldl (fun p o => applyOutcome o p) p).completed_tests =
        p.completed_tests + l.length
  | [], _ => by simp
  | o :: l, p => by
    have ih := foldl_completed l (applyOutcome o p)
    simp only [List.foldl_cons, ih, applyOutcome_completed, List.length_cons]
    omega

theorem applyTestResultLine_total (line : String) (p : TestRunnerProgress) :
    (applyTestResultLine line p).total_tests = p.total_tests := by
  unfold applyTestResultLine
  split
  · rfl
  · apply applyOutcome_total
  · rfl

theorem parseProgressStep_total_none {line : String} (p : TestRunnerProgress)
    (h : findCollected line.toList = none) :
    (parseProgressStep line p).total_tests = p.total_tests := by
  simp only [parseProgressStep, h]
  split <;> rfl

theorem parseProgressStep_total_some {line : String} (p : TestRunnerProgress) {n : Nat}
    (h : findCollected line.toList = some n) :
    (parseProgressStep line p).total_tests = n := by
  simp only [parseProgressStep, h]
  split <;> rfl

/-! ### Claim theorems -/

/-- C9: with `totalTests = 0` the derived percentage is `0` whatever
`completedTests` is (no division error is possible: the zero case is
handled before dividing), and with `totalTests ≠ 0` it equals
`completedTests / totalTests * 100`. -/
theorem progress_percentage_safe (p : TestRunnerProgress) :
    (p.total_tests = 0 → progress_percentage p = 0)
    ∧ (p.total_tests ≠ 0 →
        progress_percentage p = ((p.completed_tests : ℚ) / (p.total_tests : ℚ)) * 100) := by
  constructor <;> intro h <;> simp [progress_percentage, h]

theorem progress_percentage_safe_witness :
    progress_percentage { initProgress with completed_tests := 7 } = 0
    ∧ progress_percentage { initProgress with total_tests := 4, completed_tests := 2 }
        = ((2 : ℚ) / (4 : ℚ)) * 100 :=
  ⟨(progress_percentage_safe { initProgress with completed_tests := 7 }).1 rfl,
   (progress_percentage_safe { initProgress with total_tests := 4, completed_tests := 2 }).2
     (by decide)⟩

/-- C7: when `_monitor_process` observes end-of-stream and the process
exit, it transitions STOPPING to STOPPED and any other phase — in
particular RUNNING, the phase of a run that completes without `stop()` —
to IDLE. -/
theorem monitor_exit_transition :
    monitorCompletion TestRunnerState.stopping = TestRunnerState.stopped
    ∧ monitorCompletion TestRunnerState.running = TestRunnerState.idle
    ∧ (∀ s, s ≠ TestRunnerState.stopping → monitorCompletion s = TestRunnerState.idle) := by
  refine ⟨rfl, rfl, ?_⟩
  intro s hs
  simp [monitorCompletion, hs]

theorem monitor_exit_transition_witness :
    monitorCompletion TestRunnerState.running = TestRunnerState.idle :=
  monitor_exit_transition.2.2 TestRunnerState.running (by decide)

/-- C8: `start_tests` called in any phase other than IDLE returns `False`
and has no effect: same state, same progress, no process spawned, no
monitoring thread; `stop_tests` called while not RUNNING only logs a
warning — no state transition and no process action. -/
theorem start_stop_guards :
    (∀ (s : TestRunnerState) (p : TestRunnerProgress) (paths : List String),
        s ≠ TestRunnerState.idle →
          startTests s p paths =
            { ok := false, state := s, progress := p,
              spawned := false, monitorStarted := false })
    ∧ (∀ (s : TestRunnerState) (b : Bool),
        s ≠ TestRunnerState.running → stopTests s b = (s, [])) := by
  constructor
  · intro s p paths hs
    simp [startTests, hs]
  · intro s b hs
    simp [stopTests, hs]

theorem start_stop_guards_witness :
    startTests TestRunnerState.running initProgress ["t1.py::test_a"] =
      { ok := false, state := TestRunnerState.running, progress := initProgress,
        spawned := false, monitorStarted := false }
    ∧ stopTests TestRunnerState.idle true = (TestRunnerState.idle, []) :=
  ⟨start_stop_guards.1 TestRunnerState.running initProgress ["t1.py::test_a"] (by decide),
   start_stop_guards.2 TestRunnerState.idle true (by decide)⟩

/-- C10: a successful start from IDLE installs a fresh progress record
whose `total_tests` is the length of the requested test-path list (hence
non-zero whenever the list is non-empty) with every other counter zero
and no current test; and `total_tests` is changed by line processing only
when the `collected N item` pattern matches, in which case it becomes
`N`. -/
theorem start_seeds_total :
    (∀ (p0 : TestRunnerProgress) (paths : List String),
        startTests TestRunnerState.idle p0 paths =
          { ok := true, state := TestRunnerState.running,
            progress :=
              { total_tests := paths.length, completed_tests := 0,
                passed_tests := 0, failed_tests := 0, skipped_tests := 0,
                error_tests := 0, current_test := none },
            spawned := true, monitorStarted := true })
    ∧ (∀ (p0 : TestRunnerProgress) (paths : List String), paths ≠ [] →
        (startTests TestRunnerState.idle p0 paths).progress.total_tests ≠ 0)
    ∧ (∀ (line : String) (p : TestRunnerProgress),
        findCollected line.toList = none →
          (processOutputLine line p).total_tests = p.total_tests)
    ∧ (∀ (line : String) (p : TestRunnerProgress) (n : Nat),
        findCollected line.toList = some n →
          (processOutputLine line p).total_tests = n) := by
  refine ⟨?_, ?_, ?_, ?_⟩
  · intro p0 paths
    simp [startTests, initProgress]
  · intro p0 paths hne
    simp only [startTests, if_neg (by simp : ¬ (TestRunnerState.idle ≠ TestRunnerState.idle))]
    simpa using hne
  · intro line p h
    rw [processOutputLine, parseProgressStep_total_none _ h, applyTestResultLine_total]
  · intro line p n h
    rw [processOutputLine, parseProgressStep_total_some _ h]

theorem start_seeds_total_witness :
    (startTests TestRunnerState.idle initProgress ["t1.py::test_a", "t1.py::test_b"]).progress.total_tests ≠ 0
    ∧ (processOutputLine "t1.py::test_a PASSED" initProgress).total_tests = 0
    ∧ (processOutputLine "collected 2 items" initProgress).total_tests = 2 :=
  ⟨start_seeds_total.2.1 initProgress ["t1.py::test_a", "t1.py::test_b"] (by decide),
   start_seeds_total.2.2.1 "t1.py::test_a PASSED" initProgress (by decide),
   start_seeds_total.2.2.2 "collected 2 items" initProgress 2 (by decide)⟩

/-- C4: `update_test_status` resolution tries exactly the three tiers in
order — exact key, structural, name-suffix — first success winning, the
suffix tier reached only when exact and structural have both failed; the
bare identifier `test_x` resolves against
`{"pkg/sub/b.py::TestC::test_x": node}` via the suffix tier after the
first two tiers fail; and when all three tiers fail the function totally
returns `none` (the code logs a warning and returns — no node update, no
exception). -/
theorem resolve_three_tier :
    (∀ (α : Type) (idx : List (String × α)) (id : String) (v : α),
        lookupExact idx id = some v → resolveNode idx id = some v)
    ∧ (∀ (α : Type) (idx : List (String × α)) (id : String) (v : α),
        lookupExact idx id = none → findStructural idx id = some v →
          resolveNode idx id = some v)
    ∧ (∀ (α : Type) (idx : List (String × α)) (id : String),
        lookupExact idx id = none → findStructural idx id = none →
          resolveNode idx id = findByName idx id)
    ∧ (∀ (α : Type) (idx : List (String × α)) (id : String),
        lookupExact idx id = none → findStructural idx id = none →
          findByName idx id = none → resolveNode idx id = none)
    ∧ (lookupExact [("pkg/sub/b.py::TestC::test_x", (1 : Nat))] "test_x" = none
        ∧ findStructural [("pkg/sub/b.py::TestC::test_x", (1 : Nat))] "test_x" = none
        ∧ findByName [("pkg/sub/b.py::TestC::test_x", (1 : Nat))] "test_x" = some 1
        ∧ resolveNode [("pkg/sub/b.py::TestC::test_x", (1 : Nat))] "test_x" = some 1) := by
  refine ⟨?_, ?_, ?_, ?_, by decide⟩
  · intro α idx id v h
    simp [resolveNode, h]
  · intro α idx id v h1 h2
    simp [resolveNode, h1, h2]
  · intro α idx id h1 h2
    simp [resolveNode, h1, h2]
  · intro α idx id h1 h2 h3
    simp [resolveNode, h1, h2, h3]

theorem resolve_three_tier_witness :
    resolveNode [("a/b.py::test_x", (1 : Nat))] "a/b.py::test_x" = some 1
    ∧ resolveNode [("a/b.py::test_x", (1 : Nat))] "zzz" = none :=
  ⟨resolve_three_tier.1 Nat [("a/b.py::test_x", 1)] "a/b.py::test_x" 1 (by decide),
   resolve_three_tier.2.2.2.1 Nat [("a/b.py::test_x", 1)] "zzz"
     (by decide) (by decide) (by decide)⟩

/-- C1: folding any sequence of finished-test outcomes through the
aggregator step from the fresh progress record yields
`completed_tests = number of events`; the invariant
`completed = passed + failed + skipped + errors` holds after every run
(hence after every prefix of deliveries) and is preserved by every single
step; each step increments exactly the matching outcome counter and
`completed_tests`, each by one, leaving every other field — including
`total_tests` — unchanged, so no counter is ever decremented. -/
theorem aggregator_finished_counts :
    (∀ (l : List Outcome), (aggRun l).completed_tests = l.length)
    ∧ (∀ (l : List Outcome), aggInv (aggRun l))
    ∧ (∀ (p : TestRunnerProgress) (o : Outcome), aggInv p → aggInv (applyOutcome o p))
    ∧ (∀ (p : TestRunnerProgress),
        applyOutcome Outcome.passed p =
          { p with passed_tests := p.passed_tests + 1,
                   completed_tests := p.completed_tests + 1 })
    ∧ (∀ (p : TestRunnerProgress),
        applyOutcome Outcome.failed p =
          { p with failed_tests := p.failed_tests + 1,
                   completed_tests := p.completed_tests + 1 })
    ∧ (∀ (p : TestRunnerProgress),
        applyOutcome Outcome.skipped p =
          { p with skipped_tests := p.skipped_tests + 1,
                   completed_tests := p.completed_tests + 1 })
    ∧ (∀ (p : TestRunnerProgress),
        applyOutcome Outcome.error p =
          { p with error_tests := p.error_tests + 1,
                   completed_tests := p.completed_tests + 1 }) := by
  refine ⟨?_, ?_, fun p o => aggInv_applyOutcome o p,
    fun _ => rfl, fun _ => rfl, fun _ => rfl, fun _ => rfl⟩
  · intro l
    rw [aggRun, foldl_completed]
    simp [initProgress]
  · intro l
    exact aggInv_foldl l initProgress rfl

theorem aggregator_finished_counts_witness :
    (aggRun [Outcome.passed, Outcome.failed, Outcome.skipped, Outcome.error]).completed_tests = 4
    ∧ aggInv (applyOutcome Outcome.passed initProgress) :=
  ⟨aggregator_finished_counts.1 [Outcome.passed, Outcome.failed, Outcome.skipped, Outcome.error],
   aggregator_finished_counts.2.2.1 initProgress Outcome.passed rfl⟩

/-- C2: the canonical test-start line for
`test_mod.py::TestClass::test_method` is classified as a started event
carrying exactly that identifier, the subsequent `PASSED` line for the
same identifier as a finished event with outcome Passed; and whenever the
test-start pattern matches a line, the classification is the started
event (the start pattern is checked before every outcome pattern and the
first match wins). -/
theorem parser_round_trip :
    parseTestResultEvent "test_mod.py::TestClass::test_method ..."
      = some (ParsedEvent.started "test_mod.py::TestClass::test_method")
    ∧ parseTestResultEvent "test_mod.py::TestClass::test_method PASSED"
      = some (ParsedEvent.finished "test_mod.py::TestClass::test_method" Outcome.passed)
    ∧ (∀ (line id : String), matchStart line = some id →
        parseTestResultEvent line = some (ParsedEvent.started id)) := by
  refine ⟨by decide, by decide, ?_⟩
  intro line id h
  simp [parseTestResultEvent, h]

theorem parser_round_trip_witness :
    parseTestResultEvent "test_mod.py::TestClass::test_method ..."
      = some (ParsedEvent.started "test_mod.py::TestClass::test_method") :=
  parser_round_trip.2.2 "test_mod.py::TestClass::test_method ..."
    "test_mod.py::TestClass::test_method" (by decide)

/-- C3 counterexample: the claim's characterisation of the structural
tier fails for a candidate key that contains no `::`.  For the index
`{"test_x": node}` and the identifier `"x/test_x::test_x"` (which
contains `::` and has no exact key match) the claim's condition holds —
final `::`-segments are both `test_x` and the file-name components are
both `test_x` — yet the code's structural test is false (its guard
`'::' in stored_path` fails), and resolution updates nothing at all. -/
theorem structural_match_spec_divergence :
    containsColons (String.toList "x/test_x::test_x") = true
    ∧ lookupExact [("test_x", (0 : Nat))] "x/test_x::test_x" = none
    ∧ specStructuralMatch "x/test_x::test_x" "test_x" = true
    ∧ structuralMatch "x/test_x::test_x" "test_x" = false
    ∧ resolveNode [("test_x", (0 : Nat))] "x/test_x::test_x" = none := by
  decide

/-- C3 amended: for every identifier containing `::`, the structural tier
accepts a candidate key exactly when the key also contains `::` and the
spec's condition holds (equal final `::`-segments and equal file-name
components); in particular the identifier `c/b.py::test_x` resolves
against the index `{"a/b.py::test_x": node1}` to `node1` by the
structural tier. -/
theorem structural_match_characterization :
    (∀ (id key : String), containsColons id.toList = true →
        (structuralMatch id key = true ↔
          (containsColons key.toList = true ∧ specStructuralMatch id key = true)))
    ∧ lookupExact [("a/b.py::test_x", (1 : Nat))] "c/b.py::test_x" = none
    ∧ resolveNode [("a/b.py::test_x", (1 : Nat))] "c/b.py::test_x" = some 1 := by
  refine ⟨?_, by decide, by decide⟩
  intro id key hid
  have hid2 : 2 ≤ (splitSegs id.toList).length := (two_le_splitSegs_iff _).mpr hid
  simp only [String.toList] at hid hid2
  cases hkey : containsColons key.data with
  | false =>
    have hkey2 : ¬ 2 ≤ (splitSegs key.data).length := by
      rw [two_le_splitSegs_iff, hkey]
      simp
    simp [structuralMatch, specStructuralMatch, String.toList, hid, hkey, hkey2]
  | true =>
    have hkey2 : 2 ≤ (splitSegs key.data).length := (two_le_splitSegs_iff _).mpr hkey
    simp [structuralMatch, specStructuralMatch, String.toList, hid, hid2, hkey, hkey2]

theorem structural_match_characterization_witness :
    structuralMatch "c/b.py::test_x" "a/b.py::test_x" = true ↔
      (containsColons (String.toList "a/b.py::test_x") = true
        ∧ specStructuralMatch "c/b.py::test_x" "a/b.py::test_x" = true) :=
  structural_match_characterization.1 "c/b.py::test_x" "a/b.py::test_x" (by decide)

/-- C5 counterexample: the bounded 5-unit wait and the forceful
process-tree kill appear in the trace of actions that the body of
`stop_tests` runs synchronously in the caller's thread (here: `stop()`
from RUNNING with the process not exiting within the timeout), and they
appear in no trace of the monitoring thread's `_monitor_process` — the
opposite of the claim. -/
theorem stop_blocking_counterexample :
    RunnerAction.waitForExit (some 5) ∈ (stopTests TestRunnerState.running false).2
    ∧ RunnerAction.killProcessTree ∈ (stopTests TestRunnerState.running false).2
    ∧ RunnerAction.waitForExit (some 5) ∉ monitorProcessActions TestRunnerState.stopping
    ∧ RunnerAction.killProcessTree ∉ monitorProcessActions TestRunnerState.stopping
    ∧ RunnerAction.waitForExit (some 5) ∉ monitorProcessActions TestRunnerState.running
    ∧ RunnerAction.killProcessTree ∉ monitorProcessActions TestRunnerState.running := by
  decide

/-- C5 amended: `stop()` from RUNNING transitions to STOPPING and then
performs the graceful terminate, the bounded wait (5 time-units) and — if
the process has not exited by the deadline — the forceful kill of the
full process tree, all synchronously in the caller's thread (so the call
can block the caller up to the bounded wait and through the kill); the
monitoring thread performs only its unbounded wait-for-exit and the final
state transition, never the bounded wait or the kill. -/
theorem stop_escalation_in_caller :
    stopTests TestRunnerState.running true =
      (TestRunnerState.stopping,
        [RunnerAction.setState TestRunnerState.stopping,
         RunnerAction.terminateProcess,
         RunnerAction.waitForExit (some 5)])
    ∧ stopTests TestRunnerState.running false =
      (TestRunnerState.stopping,
        [RunnerAction.setState TestRunnerState.stopping,
         RunnerAction.terminateProcess,
         RunnerAction.waitForExit (some 5),
         RunnerAction.killProcessTree,
         RunnerAction.waitForExit none])
    ∧ (∀ s, RunnerAction.killProcessTree ∉ monitorProcessActions s
         ∧ RunnerAction.waitForExit (some 5) ∉ monitorProcessActions s)
    ∧ (∀ (s : TestRunnerState) (b : Bool),
        s ≠ TestRunnerState.running → stopTests s b = (s, [])) := by
  refine ⟨by decide, by decide, ?_, ?_⟩
  · intro s
    constructor <;> simp [monitorProcessActions]
  · intro s b hs
    simp [stopTests, hs]

theorem stop_escalation_in_caller_witness :
    (RunnerAction.killProcessTree ∉ monitorProcessActions TestRunnerState.running)
    ∧ stopTests TestRunnerState.stopped false = (TestRunnerState.stopped, []) :=
  ⟨(stop_escalation_in_caller.2.2.1 TestRunnerState.running).1,
   stop_escalation_in_caller.2.2.2 TestRunnerState.stopped false (by decide)⟩

/-- C6 counterexample: processing the canonical test-start line for the
identifier `test_mod.py::TestClass::test_method` sets `current_test` to
the whitespace-stripped raw line — identifier plus the ` ...` marker —
and not to the bare identifier that `_parse_test_result` extracts from
the very same line. -/
theorem current_test_raw_line_counterexample :
    matchStart "test_mod.py::TestClass::test_method ..."
      = some "test_mod.py::TestClass::test_method"
    ∧ (processOutputLine "test_mod.py::TestClass::test_method ..." initProgress).current_test
      = some "test_mod.py::TestClass::test_method ..."
    ∧ ("test_mod.py::TestClass::test_method ..." : String)
        ≠ "test_mod.py::TestClass::test_method" := by
  decide

/-- C6 amended: processing a line matched by the test-start pattern (and
not by the collection pattern) changes none of the six counters; it sets
`current_test` to the whitespace-stripped raw line — not the extracted
identifier — whenever the line contains neither ` PASSED` nor ` FAILED`
(the `currentTestHint` guard of `_parse_progress`), and leaves
`current_test` unchanged otherwise. -/
theorem started_line_update (line : String) (p : TestRunnerProgress) (id : String)
    (hstart : matchStart line = some id)
    (hcol : findCollected line.toList = none) :
    (processOutputLine line p).total_tests = p.total_tests
    ∧ (processOutputLine line p).completed_tests = p.completed_tests
    ∧ (processOutputLine line p).passed_tests = p.passed_tests
    ∧ (processOutputLine line p).failed_tests = p.failed_tests
    ∧ (processOutputLine line p).skipped_tests = p.skipped_tests
    ∧ (processOutputLine line p).error_tests = p.error_tests
    ∧ (currentTestHint line = true →
        (processOutputLine line p).current_test = some (stripStr line))
    ∧ (currentTestHint line = false →
        (processOutputLine line p).current_test = p.current_test) := by
  have h1 : applyTestResultLine line p = p := by
    simp [applyTestResultLine, parseTestResultEvent, hstart]
  have key : processOutputLine line p =
      if currentTestHint line then { p with current_test := some (stripStr line) }
      else p := by
    rw [processOutputLine, h1]
    simp only [parseProgressStep, hcol]
  cases hhint : currentTestHint line <;> simp [key, hhint]

theorem started_line_update_witness :
    (processOutputLine "test_mod.py::TestClass::test_method ..." initProgress).completed_tests = 0
    ∧ (processOutputLine "test_mod.py::TestClass::test_method ..." initProgress).current_test
        = some (stripStr "test_mod.py::TestClass::test_method ...") := by
  have h := started_line_update "test_mod.py::TestClass::test_method ..." initProgress
    "test_mod.py::TestClass::test_method" (by decide) (by decide)
  exact ⟨h.2.1.trans (by decide), h.2.2.2.2.2.2.1 (by decide)⟩

end PytestGui
